import Mathlib

/-!
Verification of the training-studio core (`TRAINER.py`): dataset
normalizer (`CustomDataset`), resource estimator
(`TrainingApp.estimate_memory`), job orchestrator
(`TrainingApp.start_training` / `pause_training` / `cancel_training` /
`train_model`), and the format converter
(`TrainingApp.convert_dataset`).

Modelling conventions used throughout:
* Python JSON values (the results of `json.loads`) are the inductive
  `JVal`; JSON numbers are exact rationals. Objects carry their fields
  as an association list with distinct keys (as produced by the parser).
* `pandas` NaN cells are the `JVal.jnan` value.
* Fallible operations return `Except String _` or `Option _`; a
  returned error models a raised Python exception.
-/

namespace Trainer

/-- A parsed JSON / Python value as produced by `json.loads` or by the
`pandas` readers in `TRAINER.py`. `jnan` is the float NaN that `pandas`
uses for missing cells. -/
inductive JVal where
  | jnull
  | jnan
  | jbool (b : Bool)
  | jnum (q : ℚ)
  | jstr (s : String)
  | jarr (elems : List JVal)
  | jobj (fields : List (String × JVal))

/-- Python truthiness (`bool(v)`) of a parsed value: `None`, `False`,
`0`, `""`, `[]`, `{}` are falsy; NaN is truthy. -/
def pyTruthy : JVal → Bool
  | .jnull => false
  | .jnan => true
  | .jbool b => b
  | .jnum q => q != 0
  | .jstr s => s != ""
  | .jarr es => !es.isEmpty
  | .jobj fs => !fs.isEmpty

/-- Dictionary lookup `v['k']` / `'k' in v` (on non-dicts: absent). -/
def jget (v : JVal) (k : String) : Option JVal :=
  match v with
  | .jobj fs => fs.lookup k
  | _ => none

/-- `isinstance(v, dict)`. -/
def isObj : JVal → Bool
  | .jobj _ => true
  | _ => false

/-- The row filter of `CustomDataset._load_file_data` for jsonl / json
records: `isinstance(item, dict) and 'text' in item and item['text']`
(TRAINER.py lines 119 and 130). -/
def keepRecord (item : JVal) : Bool :=
  isObj item &&
    (match jget item "text" with
     | some t => pyTruthy t
     | none => false)

/-- One file inside the `text/` sub-directory of a directory dataset:
its name and its content (`none` models a read error, which
`_load_directory_data` logs as a warning and skips). -/
structure DirFile where
  name : String
  content : Option String
deriving DecidableEq, Repr

/-- `filename.endswith(('.txt', '.md'))` (TRAINER.py line 96). -/
def hasTextExt (name : String) : Bool :=
  name.endsWith ".txt" || name.endsWith ".md"

/-- One row of a csv dataset as seen through `pandas`:
`text` is `str(row['text'])` (`none` = NaN cell), `image` is the
`image` cell (`none` = NaN cell). -/
structure CsvRow where
  text : Option String
  image : Option String
deriving DecidableEq, Repr

/-- A csv dataset file parsed by `pd.read_csv`: which of the two
relevant columns exist, and the rows. -/
structure CsvFile where
  hasTextCol : Bool
  hasImageCol : Bool
  rows : List CsvRow
deriving DecidableEq, Repr

/-- A dataset source path as `CustomDataset.load_data` distinguishes
them (TRAINER.py lines 73–147).
* `missing` — the path does not exist (every branch of
  `_load_file_data` then raises on `open`/`read_csv`, or falls through
  to the zero-rows check);
* `dir none` — a directory without the required `text/` sub-directory;
* `jsonlFile` — one entry per line, `none` for a line that
  `json.loads` rejects;
* `jsonFile none` / `csvFile none` — a structured file the parser
  rejects;
* `otherFile` — an existing file with an unsupported extension (no
  branch of `_load_file_data` matches, so no rows are produced). -/
inductive Source where
  | missing
  | dir (textDir : Option (List DirFile))
  | jsonlFile (lines : List (Option JVal))
  | jsonFile (doc : Option JVal)
  | csvFile (parsed : Option CsvFile)
  | otherFile

/-- Fold step of `_load_directory_data` (TRAINER.py lines 95–107): only
`.txt`/`.md` files are read; a read error is a logged warning (counted
in the second component); stripped non-empty content becomes one record
`{'text': text, 'image': None}`. -/
def loadDirFile (acc : List JVal × Nat) (f : DirFile) : List JVal × Nat :=
  if hasTextExt f.name then
    match f.content with
    | some c =>
        if c.trim ≠ "" then
          (acc.1 ++ [JVal.jobj [("text", JVal.jstr c.trim), ("image", JVal.jnull)]], acc.2)
        else acc
    | none => (acc.1, acc.2 + 1)
  else acc

/-- Fold step of the `.jsonl` branch of `_load_file_data`
(TRAINER.py lines 114–123): a malformed line is a logged warning
(counted) and is skipped; a parsed line is kept when `keepRecord`
holds. -/
def loadJsonlLine (acc : List JVal × Nat) (line : Option JVal) : List JVal × Nat :=
  match line with
  | none => (acc.1, acc.2 + 1)
  | some item => if keepRecord item then (acc.1 ++ [item], acc.2) else acc

/-- The `.json` branch of `_load_file_data` (TRAINER.py lines 125–133):
a list is filtered record-wise, a bare record is kept iff `keepRecord`,
any other document yields nothing. -/
def jsonDocItems (doc : JVal) : List JVal :=
  match doc with
  | .jarr items => items.filter keepRecord
  | v => if keepRecord v then [v] else []

/-- The `.csv` branch of `_load_file_data` (TRAINER.py lines 135–143):
requires a `text` column; a row is kept when its `text` cell is not NaN
and strips to a non-empty string; the stored text is the stripped
string and `image` is the `image` cell (NaN possible) or `None` when
the column is absent. -/
def loadCsvRow (hasImageCol : Bool) (acc : List JVal) (r : CsvRow) : List JVal :=
  match r.text with
  | some t =>
      if t.trim ≠ "" then
        acc ++ [JVal.jobj
          [("text", JVal.jstr t.trim),
           ("image",
             if hasImageCol then
               match r.image with
               | some s => JVal.jstr s
               | none => JVal.jnan
             else JVal.jnull)]]
      else acc
  | none => acc

/-- The records collected by the `.csv` branch: nothing without a
`text` column, otherwise the row fold. -/
def csvItems (f : CsvFile) : List JVal :=
  if f.hasTextCol then f.rows.foldl (loadCsvRow f.hasImageCol) [] else []

/-- `CustomDataset.load_data` (TRAINER.py lines 73–87 together with the
per-format helpers): returns the loaded records plus the number of
row-level warnings, or the message of the raised exception. The exact
exception messages of the unmodelled parsers (`FileNotFoundError`,
`JSONDecodeError`, `pandas` parse errors) are abbreviated; only their
occurrence matters. -/
def loadData : Source → Except String (List JVal × Nat)
  | .missing => .error "FileNotFoundError"
  | .dir none => .error "Text directory not found"
  | .dir (some files) =>
      let r := files.foldl loadDirFile ([], 0)
      if r.1.isEmpty then .error "No valid data loaded from the file" else .ok r
  | .jsonlFile lines =>
      let r := lines.foldl loadJsonlLine ([], 0)
      if r.1.isEmpty then .error "No valid data loaded from the file" else .ok r
  | .jsonFile none => .error "JSONDecodeError"
  | .jsonFile (some doc) =>
      let items := jsonDocItems doc
      if items.isEmpty then .error "No valid data loaded from the file" else .ok (items, 0)
  | .csvFile none => .error "pandas parse error"
  | .csvFile (some f) =>
      let items := csvItems f
      if items.isEmpty then .error "No valid data loaded from the file" else .ok (items, 0)
  | .otherFile => .error "No valid data loaded from the file"

/-- The examples that survive row-level filtering of a source (the
data the loader would collect, ignoring errors). -/
def validExamples : Source → List JVal
  | .missing => []
  | .dir none => []
  | .dir (some files) => (files.foldl loadDirFile ([], 0)).1
  | .jsonlFile lines => (lines.foldl loadJsonlLine ([], 0)).1
  | .jsonFile none => []
  | .jsonFile (some doc) => jsonDocItems doc
  | .csvFile none => []
  | .csvFile (some f) => csvItems f
  | .otherFile => []

/-- The ingestion-failure condition as the specification words it: the
path does not exist, a directory source lacks its required text
sub-collection, a structured file cannot be parsed, or zero valid
examples remain after filtering. -/
def specIngestionFailure (src : Source) : Bool :=
  match src with
  | .missing => true
  | .dir none => true
  | .jsonFile none => true
  | .csvFile none => true
  | _ => (validExamples src).isEmpty

/-- Specification-side predicate: the record has a `text` field and it
is Python-truthy. -/
def textTruthy (item : JVal) : Bool :=
  match jget item "text" with
  | some t => pyTruthy t
  | none => false

/-- Specification-side predicate: the record's `text` field is a
non-empty string. -/
def textNonEmptyString (item : JVal) : Bool :=
  match jget item "text" with
  | some (.jstr s) => s != ""
  | _ => false

/-! ## Job orchestrator (`TrainingApp`)

The orchestrator state is the set of `TrainingApp` attributes that the
lifecycle methods read or write: the `is_training` / `is_paused` flags,
the three control buttons (their Tk `state` and the pause button's
text), the status label, the progress bar value, and — for the
background context — the number of live `train_model` threads, the
running count of engine steps performed, of jobs started, of models
saved, and of `clean_memory` invocations.

The operator interacts through the Tk buttons whose `command`s are
`start_training` / `pause_training` / `cancel_training`; a Tk button in
`disabled` state does not invoke its command, which the event relation
models by gating each click on the button's state. The string entry
variables are modelled by their parse results: `none` stands for a
string that `int()` / `float()` rejects with `ValueError`. -/

/-- The operator-chosen inputs at the moment a click is processed:
dataset/model selection plus the seven numeric entry fields of the
training-parameter pane (modelled by their `int()` / `float()` parse
results). -/
structure Inputs where
  dataSelected : Bool
  modelSelected : Bool
  batchSize : Option Int
  epochs : Option Int
  learningRate : Option ℚ
  maxLength : Option Int
  warmupSteps : Option Int
  weightDecay : Option ℚ
  gradAccumSteps : Option Int
deriving DecidableEq, Repr

/-- The mutable `TrainingApp` state touched by the job lifecycle. -/
structure AppState where
  isTraining : Bool
  isPaused : Bool
  startEnabled : Bool
  pauseEnabled : Bool
  cancelEnabled : Bool
  pauseText : String
  statusText : String
  progressValue : ℚ
  activeThreads : Nat
  jobsStarted : Nat
  stepsDone : Nat
  modelsSaved : Nat
  cleanupCalls : Nat
deriving DecidableEq, Repr

/-- `TrainingApp` state right after `create_widgets` (TRAINER.py lines
282–296 and 422–429): not training, start button enabled, pause and
cancel buttons disabled, status label `"就绪"`, progress bar at 0, no
background thread. -/
def initState : AppState :=
  { isTraining := false
    isPaused := false
    startEnabled := true
    pauseEnabled := false
    cancelEnabled := false
    pauseText := "暂停"
    statusText := "就绪"
    progressValue := 0
    activeThreads := 0
    jobsStarted := 0
    stepsDone := 0
    modelsSaved := 0
    cleanupCalls := 0 }

/-- The validation of `start_training` (TRAINER.py lines 644–658): the
dataset and model selectors must be non-empty; `batch_size` and
`epochs` must parse as `int` and `learning_rate` as `float`; the three
parsed values must be positive. Returns the message shown by
`show_error` (the `int()`/`float()` `ValueError` text is abbreviated),
or `none` when the job may start. No other field is examined. -/
def validationError (i : Inputs) : Option String :=
  if ¬(i.dataSelected ∧ i.modelSelected) then
    some "Please select both a dataset and a model"
  else
    match i.batchSize, i.epochs, i.learningRate with
    | some b, some e, some lr =>
        if b ≤ 0 ∨ e ≤ 0 ∨ lr ≤ 0 then
          some "Invalid input: Batch size, epochs, and learning rate must be positive numbers."
        else none
    | _, _, _ => some "Invalid input: ValueError"

/-- `TrainingApp.start_training` (TRAINER.py lines 643–669): on any
validation failure the method returns after `show_error`, leaving every
attribute unchanged; otherwise it sets the flags, reconfigures the
buttons, resets status and progress, and launches one `train_model`
thread. -/
def startTraining (i : Inputs) (s : AppState) : AppState :=
  match validationError i with
  | some _ => s
  | none =>
      { s with
        isTraining := true
        isPaused := false
        startEnabled := false
        pauseEnabled := true
        pauseText := "Pause"
        cancelEnabled := true
        statusText := "Training in progress..."
        progressValue := 0
        activeThreads := s.activeThreads + 1
        jobsStarted := s.jobsStarted + 1 }

/-- `TrainingApp.pause_training` (TRAINER.py lines 671–682): a no-op
unless training; otherwise toggles `is_paused` and updates the pause
button text and the status label. -/
def pauseTraining (s : AppState) : AppState :=
  if ¬ s.isTraining then s
  else if ¬ s.isPaused then
    { s with isPaused := true, pauseText := "Resume", statusText := "Training paused..." }
  else
    { s with isPaused := false, pauseText := "Pause", statusText := "Training in progress..." }

/-- `TrainingApp.cancel_training` (TRAINER.py lines 684–695): a no-op
unless training; a no-op when the operator answers the confirmation
dialog with no; on confirmation it clears the flags, re-enables start,
disables pause and cancel, sets the status label and zeroes the
progress bar. It does not touch the training thread, the trainer, or
`clean_memory`. -/
def cancelTraining (confirmed : Bool) (s : AppState) : AppState :=
  if ¬ s.isTraining then s
  else if confirmed then
    { s with
      isTraining := false
      isPaused := false
      startEnabled := true
      pauseEnabled := false
      pauseText := "Pause"
      cancelEnabled := false
      statusText := "Training cancelled."
      progressValue := 0 }
  else s

/-- `TrainingApp.clean_memory` (TRAINER.py lines 705–717): the resource
cleanup routine (garbage pass, per-device cache clear and synchronize,
memory logging). Its only effect on the modelled state is that one more
cleanup has run. `TRAINER.py` contains no call to it. -/
def cleanMemory (s : AppState) : AppState :=
  { s with cleanupCalls := s.cleanupCalls + 1 }

/-- The events the running system processes: operator clicks on the
three control buttons (with the operator's entries, respectively the
confirmation-dialog answer), and the background `train_model` thread
progressing — one trainer step completing, or the thread ending (after
`trainer.train` returns, `save_model` runs and `train_model` falls off
its end; TRAINER.py lines 826–830). -/
inductive Event where
  | clickStart (i : Inputs)
  | clickPause
  | clickCancel (confirmed : Bool)
  | engineStep
  | engineExit
deriving DecidableEq, Repr

/-- One transition of the system. Clicks reach a method only when the
corresponding button is enabled (Tk drops clicks on `disabled`
widgets). `engineStep` models one completed optimizer step of
`trainer.train()`: the `Trainer` built at TRAINER.py lines 818–823 is
given no callback that references the app, so a step changes no
`TrainingApp` attribute; in particular nothing in the training loop
reads `is_training` or `is_paused`. `engineExit` models `train_model`
returning after `save_model`: the method ends without touching the
flags, the buttons, or `clean_memory`. -/
def stepEvent (s : AppState) : Event → AppState
  | .clickStart i => if s.startEnabled then startTraining i s else s
  | .clickPause => if s.pauseEnabled then pauseTraining s else s
  | .clickCancel c => if s.cancelEnabled then cancelTraining c s else s
  | .engineStep =>
      if s.activeThreads > 0 then { s with stepsDone := s.stepsDone + 1 } else s
  | .engineExit =>
      if s.activeThreads > 0 then
        { s with activeThreads := s.activeThreads - 1, modelsSaved := s.modelsSaved + 1 }
      else s

/-- The states the application can actually be in: everything produced
from the freshly created widget state by operator clicks and
background-thread progress. -/
inductive Reachable : AppState → Prop where
  | init : Reachable initState
  | next {s : AppState} (hs : Reachable s) (e : Event) : Reachable (stepEvent s e)

/-- A fully valid set of inputs (the defaults of the entry pane with
learning rate 1e-5, dataset and model selected). -/
def okInputs : Inputs :=
  { dataSelected := true
    modelSelected := true
    batchSize := some 1
    epochs := some 1
    learningRate := some (1 / 100000)
    maxLength := some 32
    warmupSteps := some 0
    weightDecay := some (1 / 100)
    gradAccumSteps := some 1 }

/-- Inputs that violate the claimed `warmup_steps ≥ 0` check while
every field that `start_training` actually validates is fine. -/
def negWarmupInputs : Inputs := { okInputs with warmupSteps := some (-1) }

/-- The state right after a successful start click from the initial
state: one job running. -/
def runningState : AppState := stepEvent initState (.clickStart okInputs)

/-! ## What `train_model` hands to the training engine -/

/-- The callbacks a `Trainer` can be constructed with that reference
the app; `TRAINER.py` defines exactly one such class,
`ProgressCallback` (lines 199–231). -/
inductive CallbackKind where
  | progress
deriving DecidableEq, Repr

/-- The configuration `train_model` hands to the external training
engine: the `CustomDataset` maximum sequence length (line 789), the
`TrainingArguments` hyperparameters (lines 799–815), the device the
model is placed on (lines 733 and 755), and the app-referencing
callbacks passed to the `Trainer` constructor (lines 818–823 — none
are passed). -/
structure EngineConfig where
  epochs : Int
  batchSize : Int
  gradAccumSteps : Int
  learningRate : ℚ
  weightDecay : ℚ
  warmupSteps : Int
  maxLength : Int
  device : String
  callbacks : List CallbackKind
deriving DecidableEq, Repr

/-- The engine configuration `train_model` builds from the entry
variables (TRAINER.py lines 729–823): `epochs`, `batch_size` and
`learning_rate` are re-parsed from the entries; `gradient_accumulation_steps`
is the literal `4`, `weight_decay` the literal `0.01`, `warmup_steps`
the literal `100`, the dataset `max_length` the literal `32`, the
device the literal `"cuda"`, and the `Trainer` is constructed without
any app callback. Returns `none` when a re-parse raises (the thread
then dies in the `except` clause). -/
def buildEngineConfig (i : Inputs) : Option EngineConfig :=
  match i.epochs, i.batchSize, i.learningRate with
  | some e, some b, some lr =>
      some
        { epochs := e
          batchSize := b
          gradAccumSteps := 4
          learningRate := lr
          weightDecay := 1 / 100
          warmupSteps := 100
          maxLength := 32
          device := "cuda"
          callbacks := [] }
  | _, _, _ => none

/-- The two UI updates that `ProgressCallback.on_step_end` (TRAINER.py
lines 216–222) would schedule onto the Tk main loop via
`root.after(0, ...)` if such a callback were attached: the progress-bar
percentage and the status text. -/
structure ProgressMsg where
  progressValue : ℚ
  statusText : String
deriving DecidableEq, Repr

/-- `ProgressCallback.on_step_end`: computes
`(current_step / total_steps) * 100` and formats the status line, then
hands both to the interactive context through `root.after`. -/
def onStepEnd (currentStep totalSteps : Nat) : ProgressMsg :=
  { progressValue := ((currentStep : ℚ) / (totalSteps : ℚ)) * 100
    statusText :=
      "Training in progress... Step " ++ toString currentStep ++ "/" ++ toString totalSteps }

/-! ## Resource estimator (`TrainingApp.estimate_memory`) -/

/-- The dataset path as `estimate_memory` (TRAINER.py line 624)
distinguishes it: a directory (walked recursively), a plain file
(`os.path.getsize`), or a missing path (size 0). -/
inductive DataPath where
  | dirPath (fileSizes : List Nat)
  | filePath (size : Nat)
  | absent
deriving DecidableEq, Repr

/-- One mebibyte, the divisor `1024 * 1024` of `estimate_memory`. -/
def mbBytes : ℚ := 1024 * 1024

/-- Model size in MB (TRAINER.py line 623): the sum of all file sizes
under the model path, or 0 when the path does not exist (`none`). -/
def modelSizeMB (modelFiles : Option (List Nat)) : ℚ :=
  match modelFiles with
  | some fs => (fs.sum : ℚ) / mbBytes
  | none => 0

/-- Dataset size in MB (TRAINER.py line 624). -/
def datasetSizeMB : DataPath → ℚ
  | .dirPath fs => (fs.sum : ℚ) / mbBytes
  | .filePath n => (n : ℚ) / mbBytes
  | .absent => 0

/-- `TrainingApp.estimate_memory` (TRAINER.py lines 623–627): the
projected (RAM, VRAM) requirement in MB,
`total_ram = (model_size + dataset_size + 50) * 0.5` and
`total_vram = model_size * 0.1` (the decimal literals are modelled as
exact rationals). -/
def estimateMemory (modelFiles : Option (List Nat)) (data : DataPath) : ℚ × ℚ :=
  let modelSize := modelSizeMB modelFiles
  let datasetSize := datasetSizeMB data
  ((modelSize + datasetSize + 50) * (1 / 2), modelSize * (1 / 10))

/-! ## Format converter (`TrainingApp.convert_dataset`)

The converter re-parses the source into the in-memory `data` value and
serializes it to the chosen target format (TRAINER.py lines 939–963).
The `pandas` calls it uses (`pd.DataFrame(data).to_csv` and
`pd.read_csv(...).to_dict('records')`) are modelled on the fragment
the development exercises: record lists whose cells are strings
without csv metacharacters, booleans, integers, `None` and NaN; a cell
outside this fragment makes the modelled conversion return `none`
(unmodelled) rather than guessing. -/

/-- Python iteration `for item in data` over a parsed JSON value: a
list yields its elements, a dict its keys, a string its characters;
other values raise `TypeError`. This is how the jsonl writer at
TRAINER.py lines 954–957 walks `data`. -/
def pyIter : JVal → Option (List JVal)
  | .jarr xs => some xs
  | .jobj fs => some (fs.map (fun kv => JVal.jstr kv.1))
  | .jstr s => some (s.toList.map (fun c => JVal.jstr (String.singleton c)))
  | _ => none

/-- A csv file at the textual level: a header line and one list of
cell strings per row (`""` is an empty cell). -/
structure CsvTable where
  header : List String
  rows : List (List String)
deriving DecidableEq, Repr

/-- Numeric value of a run of decimal digit characters. -/
def natOfDigits (cs : List Char) : Nat :=
  cs.foldl (fun n c => 10 * n + (c.toNat - 48)) 0

/-- Splits a character list at its first dot: the part before it, and
the part after it when a dot exists. -/
def splitAtDot : List Char → List Char × Option (List Char)
  | [] => ([], none)
  | c :: cs =>
      if c = '.' then ([], some cs)
      else
        let r := splitAtDot cs
        (c :: r.1, r.2)

/-- A non-negative decimal literal as `pandas` type inference reads
it: digits, optionally with a fractional part around one dot, at
least one digit present. -/
def parsePosRat (s : String) : Option ℚ :=
  match splitAtDot s.data with
  | (intPart, none) =>
      if ¬intPart.isEmpty ∧ intPart.all Char.isDigit then
        some (natOfDigits intPart : ℚ)
      else none
  | (intPart, some fracPart) =>
      if (¬intPart.isEmpty ∨ ¬fracPart.isEmpty) ∧ intPart.all Char.isDigit ∧
          fracPart.all Char.isDigit then
        some ((natOfDigits intPart : ℚ) +
          (natOfDigits fracPart : ℚ) / (10 : ℚ) ^ fracPart.length)
      else none

/-- A decimal literal with optional leading minus sign. -/
def parseRatLit (s : String) : Option ℚ :=
  match s.data with
  | [] => none
  | c :: cs =>
      if c = '-' then (parsePosRat (String.mk cs)).map (fun q => -q)
      else parsePosRat s

/-- `pd.read_csv` column type inference on the modelled fragment: a
column whose non-empty cells are all decimal literals becomes numeric,
one whose cells are all `True`/`False` becomes boolean, anything else
stays a string column; empty cells become NaN. -/
def inferColumn (cells : List String) : List JVal :=
  let nonEmpty := cells.filter (· ≠ "")
  if ¬nonEmpty.isEmpty ∧ nonEmpty.all (fun c => (parseRatLit c).isSome) then
    cells.map (fun c => if c = "" then JVal.jnan else JVal.jnum ((parseRatLit c).getD 0))
  else if ¬nonEmpty.isEmpty ∧ cells.all (fun c => c = "True" ∨ c = "False") then
    cells.map (fun c => JVal.jbool (c = "True"))
  else
    cells.map (fun c => if c = "" then JVal.jnan else JVal.jstr c)

/-- `pd.read_csv(path).to_dict('records')` (the csv read path of
`convert_dataset`, TRAINER.py lines 947–949): one record per row, the
cell values given by per-column type inference. -/
def csvRead (t : CsvTable) : List JVal :=
  (List.range t.rows.length).map (fun i =>
    JVal.jobj ((List.range t.header.length).map (fun j =>
      (t.header.getD j "",
        (inferColumn (t.rows.map (fun r => r.getD j ""))).getD i JVal.jnan))))

/-- True when `to_csv` would need csv quoting for the string (outside
the modelled fragment). -/
def csvNeedsQuoting (s : String) : Bool :=
  s.data.any (fun c => c = ',' || c = '"' || c = '\n' || c = '\r')

/-- How `pd.DataFrame(...).to_csv` renders one cell of the modelled
fragment: strings verbatim, `None`/NaN as the empty cell, booleans as
`True`/`False`, integer numbers in decimal. Other cells (strings
needing quoting, non-integer numbers, nested values) are unmodelled. -/
def renderCell : JVal → Option String
  | .jstr s => if csvNeedsQuoting s then none else some s
  | .jnull => some ""
  | .jnan => some ""
  | .jbool b => some (if b then "True" else "False")
  | .jnum q => if q.den = 1 then some (toString q.num) else none
  | _ => none

/-- The column set of `pd.DataFrame(records)`: the union of the record
keys in order of first appearance. -/
def csvColumns (data : List JVal) : List String :=
  data.foldl
    (fun acc v =>
      match v with
      | .jobj fs =>
          fs.foldl (fun acc2 kv => if acc2.contains kv.1 then acc2 else acc2 ++ [kv.1]) acc
      | _ => acc)
    []

/-- `pd.DataFrame(data).to_csv(target, index=False)` (TRAINER.py lines
961–963) on the modelled fragment: every entry must be a record; a key
missing from a record is a NaN cell, written empty. -/
def csvWrite (data : List JVal) : Option CsvTable := do
  let header := csvColumns data
  let rows ← data.mapM (fun v =>
    match v with
    | .jobj fs =>
        header.mapM (fun h =>
          match fs.lookup h with
          | some cell => renderCell cell
          | none => some "")
    | _ => none)
  some ⟨header, rows⟩

/-- A conversion source/target file in one of the three interchange
formats, with the same parse modelling as `Source`. -/
inductive ConvFile where
  | jsonlFile (lines : List (Option JVal))
  | jsonFile (doc : Option JVal)
  | csvFile (parsed : Option CsvTable)

/-- The target format chosen in the format-conversion pane. -/
inductive ConvTarget where
  | jsonl
  | json
  | csv
deriving DecidableEq, Repr

/-- The read half of `convert_dataset` (TRAINER.py lines 941–949): the
in-memory `data` value. A jsonl source is read without any row
filtering and a malformed line raises; a json source is `json.load`
verbatim; a csv source is the inferred record list. -/
def convertData : ConvFile → Except String JVal
  | .jsonlFile lines =>
      match lines.mapM id with
      | some items => .ok (.jarr items)
      | none => .error "JSONDecodeError"
  | .jsonFile none => .error "JSONDecodeError"
  | .jsonFile (some d) => .ok d
  | .csvFile none => .error "pandas parse error"
  | .csvFile (some t) => .ok (.jarr (csvRead t))

/-- The write half of `convert_dataset` (TRAINER.py lines 953–963):
jsonl dumps each element `for item in data` (a `TypeError` on a
non-iterable `data` is an error), json dumps `data` verbatim, csv goes
through `pd.DataFrame(data).to_csv`. `none` covers both a raised
`TypeError`/`ValueError` and cells outside the modelled `pandas`
fragment. -/
def writeTarget : ConvTarget → JVal → Option ConvFile
  | .jsonl, d => (pyIter d).map (fun items => ConvFile.jsonlFile (items.map some))
  | .json, d => some (.jsonFile (some d))
  | .csv, d =>
      match d with
      | .jarr items => (csvWrite items).map (fun t => ConvFile.csvFile (some t))
      | _ => none

/-- `TrainingApp.convert_dataset` end to end on a file source: read the
source into `data`, write it in the target format. -/
def convertFile (src : ConvFile) (tgt : ConvTarget) : Except String ConvFile :=
  match convertData src with
  | .error e => .error e
  | .ok d =>
      match writeTarget tgt d with
      | some out => .ok out
      | none => .error "conversion failed"

/-! ## Theorems -/

/-- Evaluation of the start validation at the passing inputs. -/
lemma validationError_okInputs : validationError okInputs = none := by
  norm_num [validationError, okInputs]

/-- The start validation does not look at `warmup_steps`: it also
passes with `warmup_steps = -1`. -/
lemma validationError_negWarmupInputs : validationError negWarmupInputs = none := by
  norm_num [validationError, negWarmupInputs, okInputs]

/-- The running state spelled out. -/
lemma runningState_eq :
    runningState =
      { isTraining := true, isPaused := false, startEnabled := false, pauseEnabled := true,
        cancelEnabled := true, pauseText := "Pause",
        statusText := "Training in progress...", progressValue := 0, activeThreads := 1,
        jobsStarted := 1, stepsDone := 0, modelsSaved := 0, cleanupCalls := 0 } := by
  simp [runningState, stepEvent, startTraining, validationError_okInputs, initState]

/-- Invariant of every reachable application state: while a job is
flagged in flight, the start button is disabled and the cancel button
is enabled. -/
lemma reachable_button_inv {s : AppState} (hs : Reachable s) :
    s.isTraining = true → s.startEnabled = false ∧ s.cancelEnabled = true := by
  induction hs with
  | init => intro h; simp [initState] at h
  | @next s hs e ih =>
    cases e with
    | clickStart i =>
        simp only [stepEvent]
        split
        · unfold startTraining
          split
          · exact ih
          · intro _; exact ⟨rfl, rfl⟩
        · exact ih
    | clickPause =>
        simp only [stepEvent]
        split
        · unfold pauseTraining
          split
          · exact ih
          · split
            · exact ih
            · exact ih
        · exact ih
    | clickCancel c =>
        simp only [stepEvent]
        split
        · unfold cancelTraining
          split
          · exact ih
          · split
            · intro h; exact Bool.noConfusion h
            · exact ih
        · exact ih
    | engineStep =>
        simp only [stepEvent]
        split
        · exact ih
        · exact ih
    | engineExit =>
        simp only [stepEvent]
        split
        · exact ih
        · exact ih

/-- Claim C1: in every reachable application state with a job in
flight (`is_training` true), a start request is dropped entirely — the
start button is disabled, so `start_training` is not even entered: no
second job is launched and no attribute changes (and, being a total
function of the state, the transition cannot crash). -/
theorem start_is_noop_while_training (s : AppState) (hs : Reachable s)
    (ht : s.isTraining = true) (i : Inputs) :
    stepEvent s (.clickStart i) = s := by
  have h := (reachable_button_inv hs ht).1
  simp [stepEvent, h]

/-- Witness for C1: from the state reached by one successful start
click, a second start click (with fully valid inputs) changes
nothing. -/
theorem start_is_noop_while_training_witness :
    runningState.isTraining = true ∧
    stepEvent runningState (.clickStart okInputs) = runningState :=
  ⟨by rw [runningState_eq],
    start_is_noop_while_training runningState
      (Reachable.next Reachable.init (.clickStart okInputs))
      (by rw [runningState_eq]) okInputs⟩

/-- Claim C2, counterexample: `start_training` never examines
`warmup_steps` (nor `max_length`, `weight_decay`,
`gradient_accumulation_steps`): with every validated field fine but
`warmup_steps = -1` — which violates the claimed `warmup_steps ≥ 0`
check — the job starts anyway. -/
theorem unvalidated_warmup_starts_job :
    negWarmupInputs.warmupSteps = some (-1) ∧
    (stepEvent initState (.clickStart negWarmupInputs)).isTraining = true ∧
    (stepEvent initState (.clickStart negWarmupInputs)).jobsStarted = 1 := by
  refine ⟨rfl, ?_, ?_⟩ <;>
    simp [stepEvent, startTraining, validationError_negWarmupInputs, initState]

/-- Claim C2 as amended: before a job leaves Idle, `start_training`
validates exactly that a dataset and a model are selected, that
`batch_size` and `epochs` parse as integers and `learning_rate` as a
float, and that those three values are positive; on any such failure
the state is unchanged (no partial job) and an error dialog carries
the message; the remaining numeric fields are not checked. In
particular `batch_size = 0` is rejected and
`batch_size = 1, epochs = 1, learning_rate = 1e-5` passes. -/
theorem start_validation_checks (i : Inputs) (s : AppState)
    (hd : i.dataSelected = true) (hm : i.modelSelected = true) :
    (validationError i = none ↔
      ∃ b e lr, i.batchSize = some b ∧ i.epochs = some e ∧ i.learningRate = some lr ∧
        0 < b ∧ 0 < e ∧ 0 < lr) ∧
    (validationError i ≠ none → startTraining i s = s) ∧
    (validationError i = none →
      (startTraining i s).isTraining = true ∧
      (startTraining i s).jobsStarted = s.jobsStarted + 1) ∧
    validationError { okInputs with batchSize := some 0 } ≠ none ∧
    validationError okInputs = none := by
  refine ⟨?_, ?_, ?_, by simp [validationError, okInputs], validationError_okInputs⟩
  · constructor
    · intro h
      unfold validationError at h
      rw [if_neg (by simp [hd, hm])] at h
      cases hb : i.batchSize with
      | none =>
        rw [hb] at h
        exact absurd h (by simp)
      | some b =>
        cases he : i.epochs with
        | none =>
          rw [hb, he] at h
          exact absurd h (by simp)
        | some e =>
          cases hl : i.learningRate with
          | none =>
            rw [hb, he, hl] at h
            exact absurd h (by simp)
          | some lr =>
            rw [hb, he, hl] at h
            replace h :
                (if b ≤ 0 ∨ e ≤ 0 ∨ lr ≤ 0 then
                  some "Invalid input: Batch size, epochs, and learning rate must be positive numbers."
                else (none : Option String)) = none := h
            by_cases hc : b ≤ 0 ∨ e ≤ 0 ∨ lr ≤ 0
            · rw [if_pos hc] at h
              exact absurd h (by simp)
            · push_neg at hc
              exact ⟨b, e, lr, rfl, rfl, rfl, hc.1, hc.2.1, hc.2.2⟩
    · rintro ⟨b, e, lr, hb, he, hl, h1, h2, h3⟩
      unfold validationError
      rw [if_neg (by simp [hd, hm]), hb, he, hl]
      show (if b ≤ 0 ∨ e ≤ 0 ∨ lr ≤ 0 then
          some "Invalid input: Batch size, epochs, and learning rate must be positive numbers."
        else (none : Option String)) = none
      rw [if_neg (by push_neg; exact ⟨h1, h2, h3⟩)]
  · intro h
    unfold startTraining
    cases hv : validationError i with
    | some m => rfl
    | none => exact absurd hv h
  · intro h
    unfold startTraining
    rw [h]
    exact ⟨rfl, rfl⟩

/-- Witness for the amended C2: at the passing inputs
(`batch_size = 1, epochs = 1, learning_rate = 1e-5`) the start from
the fresh state succeeds and starts exactly one job. -/
theorem start_validation_checks_witness :
    validationError okInputs = none ∧
    (startTraining okInputs initState).isTraining = true :=
  ⟨(start_validation_checks okInputs initState rfl rfl).2.2.2.2,
    ((start_validation_checks okInputs initState rfl rfl).2.2.1
      (start_validation_checks okInputs initState rfl rfl).2.2.2.2).1⟩

/-- Claim C3, counterexample: from the running state, a confirmed
cancel sets the status label directly to `"Training cancelled."` — no
`Cancelling` phase ever exists — while the background training thread
stays alive and the engine still completes further steps afterwards:
nothing signals the engine to stop at a step boundary. -/
theorem cancel_leaves_engine_running :
    runningState.isTraining = true ∧
    runningState.activeThreads = 1 ∧
    (stepEvent runningState (.clickCancel true)).statusText = "Training cancelled." ∧
    (stepEvent runningState (.clickCancel true)).activeThreads = 1 ∧
    (stepEvent (stepEvent runningState (.clickCancel true)) .engineStep).stepsDone
      = runningState.stepsDone + 1 := by
  rw [runningState_eq]
  exact ⟨rfl, rfl, rfl, rfl, rfl⟩

/-- Claim C3 as amended: for every reachable state with a job in
flight, cancel without operator confirmation leaves the whole state
unchanged; cancel with confirmation immediately clears the job flags,
resets the controls and progress bar and sets the cancelled status
text, without passing through a `Cancelling` phase and without
signalling the engine — the background thread count and the step
counter are untouched, so the training loop keeps running. -/
theorem cancel_behavior (s : AppState) (hs : Reachable s) (ht : s.isTraining = true) :
    stepEvent s (.clickCancel false) = s ∧
    (stepEvent s (.clickCancel true)).isTraining = false ∧
    (stepEvent s (.clickCancel true)).statusText = "Training cancelled." ∧
    (stepEvent s (.clickCancel true)).progressValue = 0 ∧
    (stepEvent s (.clickCancel true)).activeThreads = s.activeThreads ∧
    (stepEvent s (.clickCancel true)).stepsDone = s.stepsDone := by
  have hc := (reachable_button_inv hs ht).2
  refine ⟨?_, ?_, ?_, ?_, ?_, ?_⟩ <;>
    simp [stepEvent, hc, cancelTraining, ht]

/-- Witness for the amended C3: at the concrete running state. -/
theorem cancel_behavior_witness :
    stepEvent runningState (.clickCancel false) = runningState ∧
    (stepEvent runningState (.clickCancel true)).isTraining = false :=
  ⟨(cancel_behavior runningState
      (Reachable.next Reachable.init (.clickStart okInputs)) (by rw [runningState_eq])).1,
    (cancel_behavior runningState
      (Reachable.next Reachable.init (.clickStart okInputs)) (by rw [runningState_eq])).2.1⟩

/-- Claim C4: `clean_memory` — the resource cleanup routine — has no
call site in `TRAINER.py`. Along the concrete trace of a complete job
(start, three engine steps, engine exit with the model saved) the
cleanup has run zero times, not once; invoking the routine would bump
the count, but nothing does. -/
theorem cleanup_runs_zero_times :
    (stepEvent (stepEvent (stepEvent (stepEvent runningState .engineStep) .engineStep)
        .engineStep) .engineExit).activeThreads = 0 ∧
    (stepEvent (stepEvent (stepEvent (stepEvent runningState .engineStep) .engineStep)
        .engineStep) .engineExit).modelsSaved = 1 ∧
    (stepEvent (stepEvent (stepEvent (stepEvent runningState .engineStep) .engineStep)
        .engineStep) .engineExit).cleanupCalls = 0 ∧
    (cleanMemory (stepEvent (stepEvent (stepEvent (stepEvent runningState .engineStep)
        .engineStep) .engineStep) .engineExit)).cleanupCalls = 1 := by
  rw [runningState_eq]
  exact ⟨rfl, rfl, rfl, rfl⟩

/-- Claim C5: the `Trainer` that `train_model` builds carries no
app-referencing callback, so a completed engine step updates neither
the step counters nor the UI: after a step from the running state the
progress bar and status label still hold the values `start_training`
set, even though `ProgressCallback.on_step_end` — had it been attached
— would have marshalled the matching snapshot through `root.after`. -/
theorem steps_deliver_no_progress :
    (buildEngineConfig okInputs).map EngineConfig.callbacks = some [] ∧
    (onStepEnd 3 10).progressValue = 30 ∧
    (onStepEnd 3 10).statusText = "Training in progress... Step 3/10" ∧
    (stepEvent runningState .engineStep).stepsDone = 1 ∧
    (stepEvent runningState .engineStep).progressValue = runningState.progressValue ∧
    (stepEvent runningState .engineStep).statusText = runningState.statusText := by
  rw [runningState_eq]
  refine ⟨rfl, ?_, rfl, rfl, rfl, rfl⟩
  norm_num [onStepEnd]

/-- Claim C6, counterexample: with the operator entering
`max_length = 64`, `warmup_steps = 7`, `weight_decay = 0`,
`gradient_accumulation_steps = 2`, the engine nevertheless receives
the literals `32`, `100`, `0.01` and `4`. -/
theorem engine_config_ignores_entries :
    buildEngineConfig
        { dataSelected := true, modelSelected := true, batchSize := some 2,
          epochs := some 3, learningRate := some (1 / 1000), maxLength := some 64,
          warmupSteps := some 7, weightDecay := some 0, gradAccumSteps := some 2 } =
      some
        { epochs := 3, batchSize := 2, gradAccumSteps := 4, learningRate := 1 / 1000,
          weightDecay := 1 / 100, warmupSteps := 100, maxLength := 32,
          device := "cuda", callbacks := [] } := by
  rfl

/-- Claim C6 as amended: for every started job the engine receives the
operator's `epochs`, `batch_size` and `learning_rate`, but the
remaining hyperparameters are hardcoded — sequence length 32, warmup
steps 100, weight decay 0.01, gradient accumulation 4, device
`"cuda"` — whatever the operator entered. -/
theorem engine_config_passthrough (i : Inputs) (e b : Int) (lr : ℚ)
    (he : i.epochs = some e) (hb : i.batchSize = some b) (hlr : i.learningRate = some lr) :
    buildEngineConfig i =
      some
        { epochs := e, batchSize := b, gradAccumSteps := 4, learningRate := lr,
          weightDecay := 1 / 100, warmupSteps := 100, maxLength := 32,
          device := "cuda", callbacks := [] } := by
  unfold buildEngineConfig
  rw [he, hb, hlr]

/-- Witness for the amended C6: at the default inputs. -/
theorem engine_config_passthrough_witness :
    buildEngineConfig okInputs =
      some
        { epochs := 1, batchSize := 1, gradAccumSteps := 4, learningRate := 1 / 100000,
          weightDecay := 1 / 100, warmupSteps := 100, maxLength := 32,
          device := "cuda", callbacks := [] } :=
  engine_config_passthrough okInputs 1 1 (1 / 100000) rfl rfl rfl

/-- Claim C7: the loader raises exactly under the four conditions the
specification lists — missing path, directory without its `text/`
sub-collection, unparseable structured file, zero valid examples after
filtering — and in every other case returns the filtered data. In
particular a jsonl file with three valid lines and one malformed line
loads the three records with one logged warning and no error. -/
theorem load_error_conditions :
    (∀ src : Source, (∃ e, loadData src = .error e) ↔ specIngestionFailure src = true) ∧
    loadData (.jsonlFile
        [some (.jobj [("text", .jstr "a")]), none,
         some (.jobj [("text", .jstr "b")]), some (.jobj [("text", .jstr "c")])]) =
      .ok ([.jobj [("text", .jstr "a")], .jobj [("text", .jstr "b")],
            .jobj [("text", .jstr "c")]], 1) := by
  constructor
  · intro src
    cases src with
    | missing => simp [loadData, specIngestionFailure]
    | dir od =>
      cases od with
      | none => simp [loadData, specIngestionFailure]
      | some files =>
        simp only [loadData, specIngestionFailure, validExamples]
        split_ifs with h <;> simp [h]
    | jsonlFile lines =>
      simp only [loadData, specIngestionFailure, validExamples]
      split_ifs with h <;> simp [h]
    | jsonFile od =>
      cases od with
      | none => simp [loadData, specIngestionFailure]
      | some doc =>
        simp only [loadData, specIngestionFailure, validExamples]
        split_ifs with h <;> simp [h]
    | csvFile of =>
      cases of with
      | none => simp [loadData, specIngestionFailure]
      | some f =>
        simp only [loadData, specIngestionFailure, validExamples]
        split_ifs with h <;> simp [h]
    | otherFile => simp [loadData, specIngestionFailure, validExamples]
  · rfl

/-- Rows kept by the jsonl / json filter have a truthy `text` field. -/
lemma keepRecord_textTruthy {item : JVal} (h : keepRecord item = true) :
    textTruthy item = true := by
  unfold keepRecord at h
  rw [Bool.and_eq_true] at h
  exact h.2

/-- A non-empty string `text` field is in particular truthy. -/
lemma textNonEmptyString_textTruthy {item : JVal} (h : textNonEmptyString item = true) :
    textTruthy item = true := by
  unfold textNonEmptyString at h
  cases hg : jget item "text" with
  | none => rw [hg] at h; exact absurd h (by simp)
  | some v =>
    rw [hg] at h
    unfold textTruthy
    rw [hg]
    cases v with
    | jstr s => exact h
    | jnull => exact absurd h (by simp)
    | jnan => exact absurd h (by simp)
    | jbool b => exact absurd h (by simp)
    | jnum q => exact absurd h (by simp)
    | jarr es => exact absurd h (by simp)
    | jobj fs => exact absurd h (by simp)

/-- Every record produced by the jsonl fold was in the accumulator or
passed the row filter. -/
lemma loadJsonlLine_fold_mem (P : JVal → Prop)
    (hP : ∀ item, keepRecord item = true → P item) :
    ∀ (lines : List (Option JVal)) (acc : List JVal × Nat),
      (∀ x ∈ acc.1, P x) → ∀ x ∈ (lines.foldl loadJsonlLine acc).1, P x := by
  intro lines
  induction lines with
  | nil => intro acc h; exact h
  | cons a lines ih =>
    intro acc h
    rw [List.foldl_cons]
    apply ih
    intro y hy
    cases a with
    | none => exact h y hy
    | some item =>
      by_cases hk : keepRecord item = true
      · simp only [loadJsonlLine, hk, if_true] at hy
        rcases List.mem_append.mp hy with h1 | h2
        · exact h y h1
        · rw [List.mem_singleton] at h2
          subst h2
          exact hP y hk
      · simp only [loadJsonlLine, hk, if_false] at hy
        exact h y hy

/-- Every record produced by the directory fold was in the accumulator
or is a stripped non-empty text record. -/
lemma loadDirFile_fold_mem (P : JVal → Prop)
    (hP : ∀ c : String, c.trim ≠ "" →
      P (JVal.jobj [("text", JVal.jstr c.trim), ("image", JVal.jnull)])) :
    ∀ (files : List DirFile) (acc : List JVal × Nat),
      (∀ x ∈ acc.1, P x) → ∀ x ∈ (files.foldl loadDirFile acc).1, P x := by
  intro files
  induction files with
  | nil => intro acc h; exact h
  | cons f files ih =>
    intro acc h
    rw [List.foldl_cons]
    apply ih
    intro y hy
    unfold loadDirFile at hy
    split at hy
    · split at hy
      · rename_i c hc
        split at hy
        · rename_i ht
          rcases List.mem_append.mp hy with h1 | h2
          · exact h y h1
          · rw [List.mem_singleton] at h2
            subst h2
            exact hP c ht
        · exact h y hy
      · exact h y hy
    · exact h y hy

/-- Every record produced by the csv fold was in the accumulator or is
a stripped non-empty text record (with some image value). -/
lemma loadCsvRow_fold_mem (P : JVal → Prop) (hasImg : Bool)
    (hP : ∀ (t : String) (img : JVal), t.trim ≠ "" →
      P (JVal.jobj [("text", JVal.jstr t.trim), ("image", img)])) :
    ∀ (rows : List CsvRow) (acc : List JVal),
      (∀ x ∈ acc, P x) → ∀ x ∈ rows.foldl (loadCsvRow hasImg) acc, P x := by
  intro rows
  induction rows with
  | nil => intro acc h; exact h
  | cons r rows ih =>
    intro acc h
    rw [List.foldl_cons]
    apply ih
    intro y hy
    unfold loadCsvRow at hy
    split at hy
    · rename_i t ht0
      split at hy
      · rename_i ht
        rcases List.mem_append.mp hy with h1 | h2
        · exact h y h1
        · rw [List.mem_singleton] at h2
          subst h2
          exact hP t _ ht
      · exact h y hy
    · exact h y hy

/-- Claim C8 as amended: a record whose `text` field is missing or
Python-falsy (empty string, `null`, `0`, `false`, empty list or dict)
is dropped during ingestion — logged, not raised, not rewritten — so
every Example in a loaded Dataset has a truthy `text`; but a truthy
non-string `text` (a number, `true`, a non-empty list) is kept, so
only tabular and directory sources guarantee non-empty *string* text
for every Example. -/
theorem loaded_examples_text_truthy (src : Source) (items : List JVal) (w : Nat)
    (h : loadData src = .ok (items, w)) :
    (∀ item ∈ items, textTruthy item = true) ∧
    (∀ files, src = Source.dir (some files) →
      ∀ item ∈ items, textNonEmptyString item = true) ∧
    (∀ f, src = Source.csvFile (some f) →
      ∀ item ∈ items, textNonEmptyString item = true) := by
  cases src with
  | missing => exact absurd h (by simp [loadData])
  | dir od =>
    cases od with
    | none => exact absurd h (by simp [loadData])
    | some files =>
      have hstr : ∀ item ∈ items, textNonEmptyString item = true := by
        intro item hi
        simp only [loadData] at h
        by_cases he : (files.foldl loadDirFile ([], 0)).1.isEmpty = true
        · rw [if_pos he] at h
          exact absurd h (by simp)
        · rw [if_neg he] at h
          have hitems : (files.foldl loadDirFile ([], 0)).1 = items :=
            congrArg Prod.fst (Except.ok.inj h)
          rw [← hitems] at hi
          refine loadDirFile_fold_mem (fun x => textNonEmptyString x = true) ?_ files ([], 0)
            (by intro x hx; exact absurd hx (List.not_mem_nil x)) item hi
          intro c hc
          unfold textNonEmptyString jget
          simp only [List.lookup]
          simp [hc]
      refine ⟨fun item hi => textNonEmptyString_textTruthy (hstr item hi), ?_, ?_⟩
      · intro f _ item hi
        exact hstr item hi
      · intro f hf
        exact absurd hf (by simp)
  | jsonlFile lines =>
    have htr : ∀ item ∈ items, textTruthy item = true := by
      intro item hi
      simp only [loadData] at h
      by_cases he : (lines.foldl loadJsonlLine ([], 0)).1.isEmpty = true
      · rw [if_pos he] at h
        exact absurd h (by simp)
      · rw [if_neg he] at h
        have hitems : (lines.foldl loadJsonlLine ([], 0)).1 = items :=
          congrArg Prod.fst (Except.ok.inj h)
        rw [← hitems] at hi
        exact loadJsonlLine_fold_mem (fun x => textTruthy x = true)
          (fun a ha => keepRecord_textTruthy ha) lines ([], 0)
          (by intro x hx; exact absurd hx (List.not_mem_nil x)) item hi
    exact ⟨htr, fun f hf => absurd hf (by simp), fun f hf => absurd hf (by simp)⟩
  | jsonFile od =>
    cases od with
    | none => exact absurd h (by simp [loadData])
    | some doc =>
      have htr : ∀ item ∈ items, textTruthy item = true := by
        intro item hi
        simp only [loadData] at h
        by_cases he : (jsonDocItems doc).isEmpty = true
        · rw [if_pos he] at h
          exact absurd h (by simp)
        · rw [if_neg he] at h
          have hitems : jsonDocItems doc = items := congrArg Prod.fst (Except.ok.inj h)
          rw [← hitems] at hi
          cases doc with
          | jarr xs =>
            change item ∈ List.filter keepRecord xs at hi
            exact keepRecord_textTruthy (List.of_mem_filter hi)
          | jnull =>
            change item ∈ (if keepRecord (JVal.jnull) = true then [JVal.jnull] else []) at hi
            split_ifs at hi with hk
            · rw [List.mem_singleton] at hi; subst hi; exact keepRecord_textTruthy hk
            · exact absurd hi (List.not_mem_nil item)
          | jnan =>
            change item ∈ (if keepRecord (JVal.jnan) = true then [JVal.jnan] else []) at hi
            split_ifs at hi with hk
            · rw [List.mem_singleton] at hi; subst hi; exact keepRecord_textTruthy hk
            · exact absurd hi (List.not_mem_nil item)
          | jbool b =>
            change item ∈ (if keepRecord (JVal.jbool b) = true then [JVal.jbool b] else []) at hi
            split_ifs at hi with hk
            · rw [List.mem_singleton] at hi; subst hi; exact keepRecord_textTruthy hk
            · exact absurd hi (List.not_mem_nil item)
          | jnum q =>
            change item ∈ (if keepRecord (JVal.jnum q) = true then [JVal.jnum q] else []) at hi
            split_ifs at hi with hk
            · rw [List.mem_singleton] at hi; subst hi; exact keepRecord_textTruthy hk
            · exact absurd hi (List.not_mem_nil item)
          | jstr s2 =>
            change item ∈ (if keepRecord (JVal.jstr s2) = true then [JVal.jstr s2] else []) at hi
            split_ifs at hi with hk
            · rw [List.mem_singleton] at hi; subst hi; exact keepRecord_textTruthy hk
            · exact absurd hi (List.not_mem_nil item)
          | jobj fs =>
            change item ∈ (if keepRecord (JVal.jobj fs) = true then [JVal.jobj fs] else []) at hi
            split_ifs at hi with hk
            · rw [List.mem_singleton] at hi; subst hi; exact keepRecord_textTruthy hk
            · exact absurd hi (List.not_mem_nil item)
      exact ⟨htr, fun f hf => absurd hf (by simp), fun f hf => absurd hf (by simp)⟩
  | csvFile of =>
    cases of with
    | none => exact absurd h (by simp [loadData])
    | some f =>
      have hstr : ∀ item ∈ items, textNonEmptyString item = true := by
        intro item hi
        simp only [loadData] at h
        by_cases he : (csvItems f).isEmpty = true
        · rw [if_pos he] at h
          exact absurd h (by simp)
        · rw [if_neg he] at h
          have hitems : csvItems f = items := congrArg Prod.fst (Except.ok.inj h)
          rw [← hitems] at hi
          unfold csvItems at hi
          split_ifs at hi with hcol
          · refine loadCsvRow_fold_mem (fun x => textNonEmptyString x = true) f.hasImageCol
              ?_ f.rows []
              (by intro x hx; exact absurd hx (List.not_mem_nil x)) item hi
            intro t img ht
            unfold textNonEmptyString jget
            simp only [List.lookup]
            simp [ht]
          · exact absurd hi (List.not_mem_nil item)
      refine ⟨fun item hi => textNonEmptyString_textTruthy (hstr item hi), ?_, ?_⟩
      · intro f2 hf
        exact absurd hf (by simp)
      · intro f2 _ item hi
        exact hstr item hi
  | otherFile => exact absurd h (by simp [loadData])

/-- Witness for the amended C8: the record loaded from a one-line
jsonl source has truthy text. -/
theorem loaded_examples_text_truthy_witness :
    textTruthy (JVal.jobj [("text", JVal.jstr "a")]) = true :=
  (loaded_examples_text_truthy (.jsonlFile [some (.jobj [("text", .jstr "a")])])
      [.jobj [("text", .jstr "a")]] 0 rfl).1
    (JVal.jobj [("text", JVal.jstr "a")]) (by simp)

/-- Claim C8, counterexample: the jsonl record with the truthy
non-string text `true` survives ingestion unchanged, so a loaded
Example need not have string text at all. -/
theorem nonstring_text_survives_ingestion :
    loadData (.jsonlFile [some (.jobj [("text", .jbool true)])]) =
      .ok ([.jobj [("text", .jbool true)]], 0) ∧
    textNonEmptyString (.jobj [("text", .jbool true)]) = false := by
  exact ⟨rfl, rfl⟩

/-- Claim C9: the resource estimate is exactly the claimed formula —
`projected_ram_mb = (model_mb + dataset_mb + 50) * 0.5` and
`projected_vram_mb = model_mb * 0.1` over the recursive on-disk sizes
— and a 1000 MB model with a 0 MB dataset projects to 525.0 MB RAM
and 100.0 MB VRAM. -/
theorem estimate_memory_formula (mf : Option (List Nat)) (d : DataPath) :
    estimateMemory mf d =
      ((modelSizeMB mf + datasetSizeMB d + 50) / 2, modelSizeMB mf / 10) ∧
    estimateMemory (some [1000 * 1024 * 1024]) (.dirPath []) = (525, 100) := by
  constructor
  · simp only [estimateMemory, Prod.mk.injEq]
    constructor <;> ring
  · simp only [estimateMemory, modelSizeMB, datasetSizeMB, mbBytes, List.sum_cons,
      List.sum_nil, Prod.mk.injEq]
    norm_num

/-- Reading back a jsonl file all of whose lines parse yields the
parsed lines. -/
lemma mapM_id_map_some (l : List JVal) : (l.map some).mapM id = some l := by
  induction l with
  | nil => rfl
  | cons a l ih => rw [List.map_cons, List.mapM_cons, ih]; rfl

/-- Claim C10 as amended: between jsonl and a json *array* document the
converter round-trips exactly — each record is reproduced unchanged in
either direction (and converting to the same format is the identity).
The csv leg is excluded: it does not preserve the types of field
values (see the counterexample), and a json source holding a bare
record object is written to jsonl as its *keys*, not its record. -/
theorem jsonl_json_roundtrip (records : List JVal) :
    convertFile (.jsonlFile (records.map some)) .json
      = .ok (.jsonFile (some (.jarr records))) ∧
    convertFile (.jsonFile (some (.jarr records))) .jsonl
      = .ok (.jsonlFile (records.map some)) ∧
    convertFile (.jsonlFile (records.map some)) .jsonl
      = .ok (.jsonlFile (records.map some)) ∧
    convertFile (.jsonFile (some (.jarr records))) .json
      = .ok (.jsonFile (some (.jarr records))) := by
  have h := mapM_id_map_some records
  refine ⟨?_, ?_, ?_, ?_⟩ <;>
    simp only [convertFile, convertData, writeTarget, pyIter, h] <;> rfl

/-- Claim C10, counterexample: the single record with string text
`"5"` goes through the csv leg as the *number* 5 — jsonl → csv → jsonl
reproduces a different set of `text` values, so the round-trip law
fails for csv. -/
theorem csv_roundtrip_changes_text_type :
    convertFile (.jsonlFile [some (.jobj [("text", .jstr "5")])]) .csv
      = .ok (.csvFile (some ⟨["text"], [["5"]]⟩)) ∧
    convertFile (.csvFile (some ⟨["text"], [["5"]]⟩)) .jsonl
      = .ok (.jsonlFile [some (.jobj [("text", .jnum 5)])]) ∧
    JVal.jnum 5 ≠ JVal.jstr "5" := by
  refine ⟨rfl, ?_, fun hcontra => JVal.noConfusion hcontra⟩
  rfl

end Trainer
